import Mathlib

/-!
Shallow embedding of the gif-compressor server.

Covered source: the shared job types (src/unnamed/part_000 and
src/unnamed/part_012), the gifsicle argument builder and info probe
(src/server/services/compression.ts), the worker queue job updates
(src/server/services/queue.ts and the CompressionQueue variant in
src/unnamed/part_011), the retry route (src/unnamed/part_009), the
download route (src/server/routes/download.ts), and the two-layer
prediction service (src/unnamed/part_011).

Conventions of the embedding:
* JavaScript numbers are idealised as exact arithmetic: counts and sizes
  are naturals, computed dimensions (results of Math.round) are integers,
  fractional quantities are rationals.  Math.round x is modelled by
  Mathlib's round (both are floor (x + 1/2)).
* ISO timestamp strings are modelled as rational epoch milliseconds; the
  ISO conversion is order- and value-preserving so nothing is lost.
* SQLite rows touched through db.updateJob are modelled by a Job record
  plus a JobPatch whose fields are Option-wrapped: none means the column
  is absent from the patch (unchanged), some v means the column is set
  to v (for nullable columns v is itself an Option, some none = SET NULL).
* The external world (gifsicle invocations, the filesystem, the residual
  table) enters as explicit parameters: probe output as Option String,
  file sizes as Option Nat (none = the stat call threw), the residual
  store as a function from keys to Option ResidualEntry, and the float
  transcendentals expm1 / log1p as an abstract pair of rational functions.
-/

namespace GifCompressor

/-- Job status, from the shared types (src/unnamed/part_000). -/
inductive JobStatus
  | uploading
  | queued
  | processing
  | completed
  | failed
deriving DecidableEq

/-- The drop_frames option: "none" | "n2" | "n3" | "n4". -/
inductive DropFrames
  | dnone
  | n2
  | n3
  | n4
deriving DecidableEq

/-- The wire string of a drop_frames value. -/
def dropFramesStr : DropFrames → String
  | DropFrames.dnone => "none"
  | DropFrames.n2 => "n2"
  | DropFrames.n3 => "n3"
  | DropFrames.n4 => "n4"

/-- parseInt(options.drop_frames.slice(1), 10) for the non-"none" values
(compression.ts line 91).  Unused for "none" (the code guards on it). -/
def dropN : DropFrames → ℕ
  | DropFrames.dnone => 0
  | DropFrames.n2 => 2
  | DropFrames.n3 => 3
  | DropFrames.n4 => 4

/-- CompressionOptions, from the shared types.  target_width /
target_height are number | null, modelled as Option ℕ. -/
structure CompressionOptions where
  compression_level : ℕ
  drop_frames : DropFrames
  reduce_colors : Bool
  number_of_colors : ℕ
  optimize_transparency : Bool
  undo_optimizations : Bool
  resize_enabled : Bool
  target_width : Option ℕ
  target_height : Option ℕ
deriving DecidableEq

/-- GifInfo as produced by getGifInfo in compression.ts. -/
structure GifInfo where
  width : ℕ
  height : ℕ
  frames : ℕ
  size : ℕ
deriving DecidableEq

/-- CompressResult resolved by compressGif: output path, stat'd size and
probed (or computed fallback) dimensions. -/
structure CompressResult where
  path : String
  size : ℕ
  width : ℤ
  height : ℤ
deriving DecidableEq

/-- A job record (the jobs row, src/unnamed/part_012).  Timestamps are
rational epoch milliseconds, progress is the stored number. -/
structure Job where
  id : String
  status : JobStatus
  progress : ℚ
  original_filename : String
  original_size : ℕ
  original_path : String
  original_width : Option ℕ
  original_height : Option ℕ
  options : CompressionOptions
  compressed_path : Option String
  compressed_size : Option ℕ
  compressed_width : Option ℤ
  compressed_height : Option ℤ
  reduction_percent : Option ℚ
  created_at : ℚ
  started_at : Option ℚ
  completed_at : Option ℚ
  expires_at : Option ℚ
  error_message : Option String
deriving DecidableEq

/-- Partial<JobRow> as passed to db.updateJob: a field that is none is
absent from the patch, a field that is some v sets the column to v. -/
structure JobPatch where
  status : Option JobStatus := Option.none
  progress : Option ℚ := Option.none
  original_width : Option (Option ℕ) := Option.none
  original_height : Option (Option ℕ) := Option.none
  compressed_path : Option (Option String) := Option.none
  compressed_size : Option (Option ℕ) := Option.none
  compressed_width : Option (Option ℤ) := Option.none
  compressed_height : Option (Option ℤ) := Option.none
  reduction_percent : Option (Option ℚ) := Option.none
  started_at : Option (Option ℚ) := Option.none
  completed_at : Option (Option ℚ) := Option.none
  expires_at : Option (Option ℚ) := Option.none
  error_message : Option (Option String) := Option.none
deriving DecidableEq

/-- db.updateJob (src/server/db/client.ts): SET exactly the columns that
occur in the patch, leave every other column unchanged. -/
def applyPatch (j : Job) (p : JobPatch) : Job :=
  { j with
    status := p.status.getD j.status
    progress := p.progress.getD j.progress
    original_width := p.original_width.getD j.original_width
    original_height := p.original_height.getD j.original_height
    compressed_path := p.compressed_path.getD j.compressed_path
    compressed_size := p.compressed_size.getD j.compressed_size
    compressed_width := p.compressed_width.getD j.compressed_width
    compressed_height := p.compressed_height.getD j.compressed_height
    reduction_percent := p.reduction_percent.getD j.reduction_percent
    started_at := p.started_at.getD j.started_at
    completed_at := p.completed_at.getD j.completed_at
    expires_at := p.expires_at.getD j.expires_at
    error_message := p.error_message.getD j.error_message }

/-- JobStatusUpdate, the payload published on the job status channel. -/
structure JobStatusUpdate where
  status : JobStatus
  progress : ℚ
  compressed_size : Option ℕ := Option.none
  compressed_width : Option ℤ := Option.none
  compressed_height : Option ℤ := Option.none
  reduction_percent : Option ℚ := Option.none
  error_message : Option String := Option.none
deriving DecidableEq

/-! ### compression.ts: the gifsicle info probe -/

/-- Numeric value of a run of decimal digit characters
(parseInt(match, 10) on a digits-only capture). -/
def digitsToNat (cs : List Char) : ℕ :=
  cs.foldl (fun acc c => 10 * acc + (c.toNat - 48)) 0

/-- Strip an expected literal character sequence from the front of the
input; none when the input does not start with it. -/
def stripLit : List Char → List Char → Option (List Char)
  | [], cs => Option.some cs
  | _ :: _, [] => Option.none
  | p :: ps, c :: cs => if c = p then stripLit ps cs else Option.none

/-- Try to match the regex logical screen (\d+)x(\d+) at exactly this
position of the output. -/
def matchScreenAt (cs : List Char) : Option (ℕ × ℕ) :=
  match stripLit ("logical screen ".data) cs with
  | Option.none => Option.none
  | Option.some rest =>
    let d1 := rest.takeWhile Char.isDigit
    let r1 := rest.dropWhile Char.isDigit
    if d1 = [] then Option.none
    else
      match r1 with
      | 'x' :: r2 =>
        let d2 := r2.takeWhile Char.isDigit
        if d2 = [] then Option.none
        else Option.some (digitsToNat d1, digitsToNat d2)
      | _ => Option.none

/-- First match of logical screen (\d+)x(\d+) in the probe output
(String.prototype.match scans positions left to right). -/
def findScreen : List Char → Option (ℕ × ℕ)
  | [] => Option.none
  | c :: rest =>
    match matchScreenAt (c :: rest) with
    | Option.some r => Option.some r
    | Option.none => findScreen rest

/-- Try to match the regex (\d+) images? at exactly this position: a
digit run followed by the literal " image" (the trailing s is optional
and never inspected). -/
def matchFramesAt (cs : List Char) : Option ℕ :=
  let d := cs.takeWhile Char.isDigit
  let r := cs.dropWhile Char.isDigit
  if d = [] then Option.none
  else
    match stripLit (" image".data) r with
    | Option.some _ => Option.some (digitsToNat d)
    | Option.none => Option.none

/-- First match of (\d+) images? in the probe output. -/
def findFrames : List Char → Option ℕ
  | [] => Option.none
  | c :: rest =>
    match matchFramesAt (c :: rest) with
    | Option.some r => Option.some r
    | Option.none => findFrames rest

/-- getGifInfo (compression.ts lines 22-43).  toolOutput is the text of
the gifsicle --info invocation (none when execSync threw), fileSize the
result of statSync on the probed file (none when the stat threw).  Any
throw lands in the catch branch, which returns width 0, height 0,
frames 1 and size 0. -/
def getGifInfo (toolOutput : Option String) (fileSize : Option ℕ) : GifInfo :=
  match toolOutput, fileSize with
  | Option.some out, Option.some sz =>
    let screen := findScreen out.data
    let frames := findFrames out.data
    { width := (screen.map Prod.fst).getD 0
      height := (screen.map Prod.snd).getD 0
      frames := frames.getD 1
      size := sz }
  | _, _ => { width := 0, height := 0, frames := 1, size := 0 }

/-! ### compression.ts: argument construction -/

/-- calculateBestFit (compression.ts lines 45-59). -/
def calculateBestFit (ow oh tw th : ℕ) : ℤ × ℤ :=
  let scaleX : ℚ := (tw : ℚ) / (ow : ℚ)
  let scaleY : ℚ := (th : ℚ) / (oh : ℚ)
  let scale : ℚ := min scaleX (min scaleY 1)
  (round ((ow : ℚ) * scale), round ((oh : ℚ) * scale))

/-- The args contributed by the resize block of compressGif together
with the targetWidth / targetHeight variables it leaves behind
(compression.ts lines 103-142). -/
structure ResizeResult where
  args : List String
  targetWidth : ℤ
  targetHeight : ℤ
deriving DecidableEq

/-- The resize block of compressGif.  hasWidth / hasHeight are the JS
truthiness tests target && target > 0. -/
def resizeStep (opts : CompressionOptions) (info : GifInfo) : ResizeResult :=
  let noResize : ResizeResult := ⟨[], (info.width : ℤ), (info.height : ℤ)⟩
  if opts.resize_enabled = true then
    let tw := opts.target_width.getD 0
    let th := opts.target_height.getD 0
    if 0 < tw ∧ 0 < th then
      let bf := calculateBestFit info.width info.height tw th
      if bf.1 < (info.width : ℤ) ∨ bf.2 < (info.height : ℤ) then
        ⟨["--resize-fit=" ++ toString bf.1 ++ "x" ++ toString bf.2], bf.1, bf.2⟩
      else noResize
    else if 0 < tw ∧ tw < info.width then
      ⟨["--resize-width=" ++ toString tw], (tw : ℤ),
        round ((info.height : ℚ) * ((tw : ℚ) / (info.width : ℚ)))⟩
    else if 0 < th ∧ th < info.height then
      ⟨["--resize-height=" ++ toString th],
        round ((info.width : ℚ) * ((th : ℚ) / (info.height : ℚ))), (th : ℤ)⟩
    else noResize
  else noResize

/-- The frame-selection loop for (let i = n - 1; i < frames; i += n),
run on explicit fuel so that it is structurally recursive and reduces in
the kernel; the increment n is encoded as stepPred + 1.  selLoop below
supplies enough fuel, and selLoop_eq recovers the loop's defining
equation. -/
def selLoopGo (stepPred frames : ℕ) : ℕ → ℕ → List ℕ
  | 0, _ => []
  | fuel + 1, i =>
    if i < frames then i :: selLoopGo stepPred frames fuel (i + stepPred + 1)
    else []

/-- The frame-selection loop of compressGif, entered at index i. -/
def selLoop (stepPred frames i : ℕ) : List ℕ :=
  selLoopGo stepPred frames (frames - i) i

/-- The zero-based frame indices kept for drop factor n: i = n-1, 2n-1,
... while i < frames (compression.ts lines 88-96). -/
def frameSelectorIdxs (n frames : ℕ) : List ℕ :=
  selLoop (n - 1) frames (n - 1)

/-- The frame selector strings pushed after the input path: empty for
drop_frames = "none", otherwise one "#i" per kept index. -/
def selectorStrings (opts : CompressionOptions) (info : GifInfo) : List String :=
  if opts.drop_frames = DropFrames.dnone then []
  else (frameSelectorIdxs (dropN opts.drop_frames) info.frames).map
    (fun i => "#" ++ toString i)

/-- The --colors argument (compression.ts lines 98-101). -/
def colorArgs (opts : CompressionOptions) : List String :=
  if opts.reduce_colors = true ∧ opts.number_of_colors < 256 then
    ["--colors=" ++ toString opts.number_of_colors]
  else []

/-- Every argument pushed before the input path: lossy level, -O3,
optional --unoptimize, optional --colors, optional resize argument. -/
def optionArgs (opts : CompressionOptions) (info : GifInfo) : List String :=
  ["--lossy=" ++ toString opts.compression_level, "-O3"]
    ++ (if opts.undo_optimizations = true then ["--unoptimize"] else [])
    ++ colorArgs opts
    ++ (resizeStep opts info).args

/-- The full gifsicle argument list built by compressGif: option
arguments, then the input path, then the frame selectors, then
-o output. -/
def buildArgs (inputPath outputPath : String) (opts : CompressionOptions)
    (info : GifInfo) : List String :=
  optionArgs opts info ++ [inputPath] ++ selectorStrings opts info
    ++ ["-o", outputPath]

/-- Head character of a string, used to separate argument classes. -/
def firstChar (s : String) : Option Char :=
  s.data.head?

/-! ### CompressionQueue (src/unnamed/part_011 lines 444-559, identical
catch and success branches in src/server/services/queue.ts) -/

/-- getTotalProgress (part_011 lines 544-559): map an internal progress
value into the phase range displayed for the given status. -/
def getTotalProgress (progress : ℚ) (status : JobStatus) : ℚ :=
  match status with
  | JobStatus.queued => 0
  | JobStatus.uploading => progress / 4
  | JobStatus.processing => 25 + (progress / 100) * 74
  | JobStatus.completed => 100
  | JobStatus.failed => 0

/-- The db patch written when a worker picks a job up: status
processing, started_at = now.  No other column is touched. -/
def processingStartPatch (nowMs : ℚ) : JobPatch :=
  { status := Option.some JobStatus.processing
    started_at := Option.some (Option.some nowMs) }

/-- The status event published when processing starts (part_011 line
450): status processing, progress 25. -/
def processingStartEvent : JobStatusUpdate :=
  { status := JobStatus.processing, progress := 25 }

/-- reductionPercent = ((original_size - result.size) / original_size) *
100, computed in exact arithmetic. -/
def reductionPercent (originalSize resultSize : ℕ) : ℚ :=
  ((originalSize : ℚ) - (resultSize : ℚ)) / (originalSize : ℚ) * 100

/-- expires_at computed on completion: now + ttl seconds when
GIF_RETENTION_TTL is configured, null otherwise. -/
def computeExpiresAt (ttlSeconds : Option ℕ) (nowMs : ℚ) : Option ℚ :=
  match ttlSeconds with
  | Option.some t => Option.some (nowMs + (t : ℚ) * 1000)
  | Option.none => Option.none

/-- The db patch written on successful completion (part_011 lines
498-509 / queue.ts lines 105-116). -/
def completionPatch (j : Job) (result : CompressResult)
    (ttlSeconds : Option ℕ) (nowMs : ℚ) : JobPatch :=
  { status := Option.some JobStatus.completed
    progress := Option.some 100
    compressed_path := Option.some (Option.some result.path)
    compressed_size := Option.some (Option.some result.size)
    compressed_width := Option.some (Option.some result.width)
    compressed_height := Option.some (Option.some result.height)
    reduction_percent :=
      Option.some (Option.some (reductionPercent j.original_size result.size))
    completed_at := Option.some (Option.some nowMs)
    expires_at := Option.some (computeExpiresAt ttlSeconds nowMs) }

/-- The stored record after the completion update. -/
def completeJob (j : Job) (result : CompressResult) (ttlSeconds : Option ℕ)
    (nowMs : ℚ) : Job :=
  applyPatch j (completionPatch j result ttlSeconds nowMs)

/-- The completion event (part_011 lines 511-518). -/
def completionEvent (j : Job) (result : CompressResult) : JobStatusUpdate :=
  { status := JobStatus.completed
    progress := 100
    compressed_size := Option.some result.size
    compressed_width := Option.some result.width
    compressed_height := Option.some result.height
    reduction_percent :=
      Option.some (reductionPercent j.original_size result.size) }

/-- The db patch written in the catch branch of processJob (part_011
lines 528-532 / queue.ts lines 135-139): status failed, error_message,
completed_at.  No other column occurs in the patch. -/
def failurePatch (msg : String) (nowMs : ℚ) : JobPatch :=
  { status := Option.some JobStatus.failed
    error_message := Option.some (Option.some msg)
    completed_at := Option.some (Option.some nowMs) }

/-- The stored record after the failure update. -/
def failJob (j : Job) (msg : String) (nowMs : ℚ) : Job :=
  applyPatch j (failurePatch msg nowMs)

/-- The failure event (part_011 lines 534-538): status failed, progress
0, error_message. -/
def failureEvent (msg : String) : JobStatusUpdate :=
  { status := JobStatus.failed
    progress := 0
    error_message := Option.some msg }

/-! ### Retry route (src/unnamed/part_009 lines 91-124) -/

/-- The reset patch of POST /jobs/:id/retry: exactly the columns listed
at part_009 lines 104-113. -/
def retryPatch : JobPatch :=
  { status := Option.some JobStatus.queued
    progress := Option.some 0
    error_message := Option.some Option.none
    started_at := Option.some Option.none
    completed_at := Option.some Option.none
    compressed_path := Option.some Option.none
    compressed_size := Option.some Option.none
    reduction_percent := Option.some Option.none }

/-- Outcome of the retry route: 404, 400, or 200 together with the
stored record that is re-enqueued and echoed back. -/
inductive RetryResult
  | notFound
  | badRequest
  | ok (updated : Job)
deriving DecidableEq

/-- POST /jobs/:id/retry: 404 when the id is absent, 400 unless the job
is failed, otherwise apply the reset patch and re-enqueue. -/
def retryRoute (stored : Option Job) : RetryResult :=
  match stored with
  | Option.none => RetryResult.notFound
  | Option.some job =>
    if job.status ≠ JobStatus.failed then RetryResult.badRequest
    else RetryResult.ok (applyPatch job retryPatch)

/-! ### Download route (src/server/routes/download.ts lines 12-46) -/

/-- Suffix of the character list starting at its last '.', if any. -/
def lastDotSuffix : List Char → Option (List Char)
  | [] => Option.none
  | c :: cs =>
    match lastDotSuffix cs with
    | Option.some e => Option.some e
    | Option.none => if c = '.' then Option.some (c :: cs) else Option.none

/-- path.extname on a bare filename: the suffix from the last dot,
except that a dot in first position yields the empty extension. -/
def extname (s : String) : String :=
  match s.data with
  | [] => ""
  | _ :: rest =>
    match lastDotSuffix rest with
    | Option.some e => String.mk e
    | Option.none => ""

/-- Remove an extension suffix from a filename if it is present
(path.basename(name, ext) for a bare filename, which never strips the
whole name; extname never returns the whole name, so a plain
suffix-strip is faithful). -/
def dropSuffix (s ext : String) : String :=
  if ext.data.length ≤ s.data.length ∧
      s.data.drop (s.data.length - ext.data.length) = ext.data then
    String.mk (s.data.take (s.data.length - ext.data.length))
  else s

/-- The download filename: basename + "-compressed" + ext
(download.ts lines 28-31). -/
def downloadFilename (original : String) : String :=
  dropSuffix original (extname original) ++ "-compressed" ++ extname original

/-- Outcome of GET /download/:id: 404, 400, or a streamed file with its
Content-Disposition header value. -/
inductive DownloadResult
  | notFound
  | badRequest
  | stream (contentDisposition : String) (path : String)
deriving DecidableEq

/-- GET /download/:id.  fileExists models fs.existsSync. -/
def downloadRoute (stored : Option Job) (fileExists : String → Bool) :
    DownloadResult :=
  match stored with
  | Option.none => DownloadResult.notFound
  | Option.some job =>
    if job.status ≠ JobStatus.completed then DownloadResult.badRequest
    else
      match job.compressed_path with
      | Option.none => DownloadResult.notFound
      | Option.some p =>
        if p.isEmpty then DownloadResult.notFound
        else if fileExists p then
          DownloadResult.stream
            ("attachment; filename=\"" ++
              downloadFilename job.original_filename ++ "\"") p
        else DownloadResult.notFound

/-! ### PredictionService (src/unnamed/part_011 lines 1-385) -/

/-- The float transcendentals used by the predictor, kept abstract so
that every definition stays executable; the claims hold for an
arbitrary interpretation. -/
structure MathPrims where
  expm1 : ℚ → ℚ
  log1p : ℚ → ℚ

/-- A row of the prediction_residuals table. -/
structure ResidualEntry where
  ema : ℚ
  count : ℕ
deriving DecidableEq

/-- EMA_ALPHA = 0.3 (part_011 line 76). -/
def emaAlpha : ℚ := 3 / 10

/-- MAX_RESIDUAL_CORRECTION = 0.5 (part_011 line 77). -/
def maxResidualCorrection : ℚ := 1 / 2

/-- MIN_SAMPLES_FOR_CORRECTION = 3 (part_011 line 78). -/
def minSamplesForCorrection : ℕ := 3

/-- The runtime feature vector (part_011 lines 27-46), all fields JS
numbers. -/
structure FeatureVector where
  total_pixels : ℚ
  target_pixels : ℚ
  frames : ℚ
  file_size_bytes : ℚ
  target_width : ℚ
  target_height : ℚ
  number_of_colors : ℚ
  compression_level : ℚ
  reduce_colors : ℚ
  optimize_transparency : ℚ
  undo_optimizations : ℚ
  drop_frames_none : ℚ
  drop_frames_n2 : ℚ
  drop_frames_n3 : ℚ
  drop_frames_n4 : ℚ
deriving DecidableEq

/-- The target dimensions computed inside extractFeatures (part_011
lines 110-130).  Its truthiness guards differ from the resize block of
compressGif: both targets only need to be non-null and nonzero, and the
best-fit branch applies even at scale 1. -/
def extractTargetDims (info : GifInfo) (opts : CompressionOptions) : ℤ × ℤ :=
  let tw := opts.target_width.getD 0
  let th := opts.target_height.getD 0
  if opts.resize_enabled = true then
    if tw ≠ 0 ∧ th ≠ 0 then
      let scaleX : ℚ := (tw : ℚ) / (info.width : ℚ)
      let scaleY : ℚ := (th : ℚ) / (info.height : ℚ)
      let scale : ℚ := min scaleX (min scaleY 1)
      (round ((info.width : ℚ) * scale), round ((info.height : ℚ) * scale))
    else if tw ≠ 0 ∧ tw < info.width then
      ((tw : ℤ), round ((info.height : ℚ) * ((tw : ℚ) / (info.width : ℚ))))
    else if th ≠ 0 ∧ th < info.height then
      (round ((info.width : ℚ) * ((th : ℚ) / (info.height : ℚ))), (th : ℤ))
    else ((info.width : ℤ), (info.height : ℤ))
  else ((info.width : ℤ), (info.height : ℤ))

/-- extractFeatures (part_011 lines 106-154). -/
def extractFeatures (info : GifInfo) (opts : CompressionOptions) :
    FeatureVector :=
  let dims := extractTargetDims info opts
  { total_pixels := ((info.frames * info.width * info.height : ℕ) : ℚ)
    target_pixels := (info.frames : ℚ) * (dims.1 : ℚ) * (dims.2 : ℚ)
    frames := (info.frames : ℚ)
    file_size_bytes := (info.size : ℚ)
    target_width := (dims.1 : ℚ)
    target_height := (dims.2 : ℚ)
    number_of_colors :=
      if opts.reduce_colors = true then (opts.number_of_colors : ℚ) else 256
    compression_level := (opts.compression_level : ℚ)
    reduce_colors := if opts.reduce_colors = true then 1 else 0
    optimize_transparency := if opts.optimize_transparency = true then 1 else 0
    undo_optimizations := if opts.undo_optimizations = true then 1 else 0
    drop_frames_none := if opts.drop_frames = DropFrames.dnone then 1 else 0
    drop_frames_n2 := if opts.drop_frames = DropFrames.n2 then 1 else 0
    drop_frames_n3 := if opts.drop_frames = DropFrames.n3 then 1 else 0
    drop_frames_n4 := if opts.drop_frames = DropFrames.n4 then 1 else 0 }

/-- The baseline model file: intercept, per-feature ridge coefficients
and standardisation parameters, all keyed by feature name. -/
structure BaselineModel where
  intercept : ℚ
  coefficients : String → Option ℚ
  scalerMean : String → Option ℚ
  scalerScale : String → Option ℚ

/-- Object.entries(features) in the declaration order of the feature
vector literal. -/
def featureEntries (f : FeatureVector) : List (String × ℚ) :=
  [("total_pixels", f.total_pixels),
   ("target_pixels", f.target_pixels),
   ("frames", f.frames),
   ("file_size_bytes", f.file_size_bytes),
   ("target_width", f.target_width),
   ("target_height", f.target_height),
   ("number_of_colors", f.number_of_colors),
   ("compression_level", f.compression_level),
   ("reduce_colors", f.reduce_colors),
   ("optimize_transparency", f.optimize_transparency),
   ("undo_optimizations", f.undo_optimizations),
   ("drop_frames_none", f.drop_frames_none),
   ("drop_frames_n2", f.drop_frames_n2),
   ("drop_frames_n3", f.drop_frames_n3),
   ("drop_frames_n4", f.drop_frames_n4)]

/-- One iteration of the coefficient loop of baselinePredict (part_011
lines 171-185): skip features without a weight, standardise when both
scaler entries exist, skip entirely when the scale is zero. -/
def featureStep (m : BaselineModel) (acc : ℚ) (nv : String × ℚ) : ℚ :=
  match m.coefficients nv.1 with
  | Option.none => acc
  | Option.some w =>
    match m.scalerMean nv.1, m.scalerScale nv.1 with
    | Option.some mean, Option.some scale =>
      if scale = 0 then acc else acc + w * ((nv.2 - mean) / scale)
    | _, _ => acc + w * nv.2

/-- baselinePredict (part_011 lines 160-188): ridge model when loaded,
otherwise the documented fallback log1p(pixels * 1e-7 + 0.5) where
pixels is features.total_pixels || 1. -/
def baselinePredict (prims : MathPrims) (model : Option BaselineModel)
    (f : FeatureVector) : ℚ :=
  match model with
  | Option.none =>
    let pixels : ℚ := if f.total_pixels = 0 then 1 else f.total_pixels
    prims.log1p (pixels * (1 / 10000000) + 1 / 2)
  | Option.some m => (featureEntries f).foldl (featureStep m) m.intercept

/-- The size_group bucket by target pixels (part_011 lines 199-206). -/
def sizeGroup (tp : ℚ) : String :=
  if tp < 200000 then "xs"
  else if tp < 1000000 then "s"
  else if tp < 4000000 then "m"
  else "l"

/-- The compression_bucket key (part_011 lines 220-229). -/
def compressionBucketKey (lvl : ℕ) : String :=
  if lvl = 0 then "compression_bucket=none"
  else if lvl ≤ 50 then "compression_bucket=low"
  else if lvl ≤ 100 then "compression_bucket=medium"
  else "compression_bucket=high"

/-- getResidualKeys (part_011 lines 194-232). -/
def getResidualKeys (f : FeatureVector) (opts : CompressionOptions) :
    List String :=
  ["size_group=" ++ sizeGroup f.target_pixels,
   "optimize_transparency=" ++
     (if opts.optimize_transparency = true then "1" else "0"),
   "reduce_colors=" ++ (if opts.reduce_colors = true then "1" else "0"),
   "undo_optimizations=" ++
     (if opts.undo_optimizations = true then "1" else "0"),
   "drop_frames=" ++ dropFramesStr opts.drop_frames,
   compressionBucketKey opts.compression_level]

/-- The residual store: db.getResidual as a function from feature keys
to rows. -/
def ResidualStore : Type := String → Option ResidualEntry

/-- applyResidualCorrection (part_011 lines 238-264): sum the EMAs of
the keys whose count has reached MIN_SAMPLES_FOR_CORRECTION, average
when any are active, clamp to plus/minus MAX_RESIDUAL_CORRECTION. -/
def applyResidualCorrection (store : ResidualStore) (f : FeatureVector)
    (opts : CompressionOptions) : ℚ :=
  let active := (getResidualKeys f opts).filterMap fun k =>
    match store k with
    | Option.some e =>
      if minSamplesForCorrection ≤ e.count then Option.some e.ema
      else Option.none
    | Option.none => Option.none
  let total := if active.length = 0 then 0 else active.sum / (active.length : ℚ)
  max (-maxResidualCorrection) (min maxResidualCorrection total)

/-- predict (part_011 lines 269-286). -/
def predict (prims : MathPrims) (model : Option BaselineModel)
    (store : ResidualStore) (info : GifInfo) (opts : CompressionOptions) : ℚ :=
  let f := extractFeatures info opts
  let logBaseline := baselinePredict prims model f
  let correction := applyResidualCorrection store f opts
  max 100 (prims.expm1 (logBaseline + correction) * 1000)

/-- The per-key EMA update of recordSample (part_011 lines 326-339). -/
def updateResidual (residual : ℚ) (existing : Option ResidualEntry) :
    ResidualEntry :=
  match existing with
  | Option.none => ⟨residual, 1⟩
  | Option.some e =>
    if e.count = 0 then ⟨residual, 1⟩
    else ⟨emaAlpha * residual + (1 - emaAlpha) * e.ema, e.count + 1⟩

/-- The residual-store state after the key loop of recordSample: each
key is looked up in the current state and upserted in order. -/
def recordSampleResiduals (store : ResidualStore) (keys : List String)
    (residual : ℚ) : ResidualStore :=
  keys.foldl
    (fun st k => fun q =>
      if q = k then Option.some (updateResidual residual (st k)) else st q)
    store

/-- recordSample (part_011 lines 291-352) restricted to its effect on
the residual table: residual = log1p(actual_ms / 1000) - baseline, then
the EMA update over the job's bucket keys. -/
def recordSample (prims : MathPrims) (model : Option BaselineModel)
    (store : ResidualStore) (info : GifInfo) (opts : CompressionOptions)
    (actualMs : ℚ) : ResidualStore :=
  let f := extractFeatures info opts
  let residual := prims.log1p (actualMs / 1000) - baselinePredict prims model f
  recordSampleResiduals store (getResidualKeys f opts) residual

/-! ### Definitions taken from the specification's words, for comparison
with the source embeddings -/

/-- Modelled from the spec: round1, rounding to one decimal place, used
by testable property 1 for reduction_percent. -/
def specRound1 (x : ℚ) : ℚ :=
  (round (10 * x) : ℚ) / 10

/-- Modelled from the spec: the average of the stored EMA residuals over
exactly those keys whose sample count is at least 3, and 0 when none
qualify (claim C5's words). -/
def specAvgActiveResidual (store : ResidualStore) (keys : List String) : ℚ :=
  let qualifying := keys.filter fun k =>
    match store k with
    | Option.some e => minSamplesForCorrection ≤ e.count
    | Option.none => false
  if qualifying.length = 0 then 0
  else (qualifying.map fun k =>
    match store k with
    | Option.some e => e.ema
    | Option.none => 0).sum / (qualifying.length : ℚ)

/-- Modelled from the spec: the claimed fallback baseline
log1p(total_pixels * 1e-7 + 0.5) (claim C5's words, without the || 1
guard of the source). -/
def specFallbackBaseline (prims : MathPrims) (f : FeatureVector) : ℚ :=
  prims.log1p (f.total_pixels * (1 / 10000000) + 1 / 2)

/-- The EMA state of one bucket key after an initial residual r0 and a
list of further residuals, all applied through updateResidual. -/
def emaIterate (r0 : ℚ) (rs : List ℚ) : ResidualEntry :=
  rs.foldl (fun e r => updateResidual r (Option.some e))
    (updateResidual r0 Option.none)

/-! ### Concrete data used by witnesses and counterexamples -/

/-- DEFAULT_COMPRESSION_OPTIONS (src/unnamed/part_000 lines 20-30). -/
def defaultOptions : CompressionOptions :=
  { compression_level := 75
    drop_frames := DropFrames.dnone
    reduce_colors := false
    number_of_colors := 256
    optimize_transparency := true
    undo_optimizations := false
    resize_enabled := false
    target_width := Option.none
    target_height := Option.none }

/-- Options with drop_frames = "n3". -/
def exN3Options : CompressionOptions :=
  { defaultOptions with drop_frames := DropFrames.n3 }

/-- Options asking for a best-fit resize to 384x256. -/
def exResizeOptions : CompressionOptions :=
  { defaultOptions with
    resize_enabled := true
    target_width := Option.some 384
    target_height := Option.some 256 }

/-- A probed 512x512 single-frame gif. -/
def exInfo512 : GifInfo :=
  { width := 512, height := 512, frames := 1, size := 2000000 }

/-- A probed 12-frame gif. -/
def exInfo12 : GifInfo :=
  { width := 100, height := 80, frames := 12, size := 50000 }

/-- The GifInfo produced when probing fails: (0, 0, 1, 0). -/
def probeFailInfo : GifInfo :=
  { width := 0, height := 0, frames := 1, size := 0 }

/-- A job record mid-processing: the animator has written progress 57,
and the compressed_width / compressed_height columns still hold values
from an earlier completed run (retry does not clear them). -/
def exProcessingJob : Job :=
  { id := "job-1"
    status := JobStatus.processing
    progress := 57
    original_filename := "anim.gif"
    original_size := 100
    original_path := "uploads/a.gif"
    original_width := Option.some 100
    original_height := Option.some 80
    options := defaultOptions
    compressed_path := Option.none
    compressed_size := Option.none
    compressed_width := Option.some 7
    compressed_height := Option.some 7
    reduction_percent := Option.none
    created_at := 0
    started_at := Option.some 10
    completed_at := Option.none
    expires_at := Option.none
    error_message := Option.none }

/-- A failed job record that still carries compressed dimensions from a
completed run. -/
def exFailedJob : Job :=
  { exProcessingJob with
    status := JobStatus.failed
    completed_at := Option.some 20
    error_message := Option.some "boom" }

/-- A completed job record whose artifact exists. -/
def exCompletedJob : Job :=
  { exProcessingJob with
    status := JobStatus.completed
    progress := 100
    compressed_path := Option.some "output/x.gif"
    compressed_size := Option.some 40
    reduction_percent := Option.some 60
    completed_at := Option.some 20 }

/-- A processing job with original_size 3, used to exhibit the
unrounded reduction_percent. -/
def exJob3 : Job :=
  { exProcessingJob with original_size := 3 }

/-- A tool result of size 1. -/
def exResult1 : CompressResult :=
  { path := "output/y.gif", size := 1, width := 10, height := 8 }

/-- The identity interpretation of the float transcendentals; the real
expm1 and log1p share with it the property used by the counterexamples,
namely injectivity. -/
def idPrims : MathPrims :=
  { expm1 := fun x => x, log1p := fun x => x }

/-- A residual store with no rows. -/
def emptyStore : ResidualStore :=
  fun _ => Option.none

/-! ## Theorems -/

/-- C1 (counterexample): the failure update of the worker's catch path
leaves the stored progress at its last animated value (57, not 0) and
leaves a leftover compressed_width column untouched, so the claimed
stored-record invariant fails. -/
theorem c1_counterexample :
    (failJob exProcessingJob "gifsicle failed with code 1: err" 99).status =
      JobStatus.failed ∧
    (failJob exProcessingJob "gifsicle failed with code 1: err" 99).progress = 57 ∧
    ¬ (failJob exProcessingJob "gifsicle failed with code 1: err" 99).progress = 0 ∧
    (failJob exProcessingJob "gifsicle failed with code 1: err" 99).compressed_width =
      Option.some 7 := by
  refine ⟨rfl, rfl, ?_, rfl⟩
  decide

/-- C1 (amended): the catch path of CompressionQueue.processJob sets
status = failed, error_message to the caught message and completed_at =
now in the stored record, leaves progress and every compressed_* column
unchanged, and publishes a failure event whose progress is 0 and whose
error_message is the caught message. -/
theorem c1_failed_update (j : Job) (msg : String) (now : ℚ) :
    (failJob j msg now).status = JobStatus.failed ∧
    (failJob j msg now).error_message = Option.some msg ∧
    (failJob j msg now).completed_at = Option.some now ∧
    (failJob j msg now).progress = j.progress ∧
    (failJob j msg now).compressed_path = j.compressed_path ∧
    (failJob j msg now).compressed_size = j.compressed_size ∧
    (failJob j msg now).compressed_width = j.compressed_width ∧
    (failJob j msg now).compressed_height = j.compressed_height ∧
    (failJob j msg now).reduction_percent = j.reduction_percent ∧
    failureEvent msg =
      { status := JobStatus.failed, progress := 0,
        error_message := Option.some msg } :=
  ⟨rfl, rfl, rfl, rfl, rfl, rfl, rfl, rfl, rfl, rfl⟩

/-- C2 (counterexample): retrying a failed job that still carries
compressed dimensions succeeds but does not clear compressed_width or
compressed_height, so "every compressed_* field is cleared" fails. -/
theorem c2_counterexample :
    retryRoute (Option.some exFailedJob) =
      RetryResult.ok (applyPatch exFailedJob retryPatch) ∧
    (applyPatch exFailedJob retryPatch).compressed_width = Option.some 7 ∧
    (applyPatch exFailedJob retryPatch).compressed_height = Option.some 7 := by
  refine ⟨?_, rfl, rfl⟩
  decide

/-- C2 (amended): POST /jobs/:id/retry returns 404 when the id is
absent and 400 unless the status is failed; on success it preserves
options, original_filename, original_size, original_path,
original_width, original_height and created_at, sets status = queued
and progress = 0, clears error_message, started_at, completed_at,
compressed_path, compressed_size and reduction_percent, and leaves
compressed_width, compressed_height and expires_at unchanged. -/
theorem c2_retry (stored : Option Job) :
    (stored = Option.none → retryRoute stored = RetryResult.notFound) ∧
    (∀ j, stored = Option.some j → j.status ≠ JobStatus.failed →
      retryRoute stored = RetryResult.badRequest) ∧
    (∀ j, stored = Option.some j → j.status = JobStatus.failed →
      retryRoute stored = RetryResult.ok (applyPatch j retryPatch) ∧
      (applyPatch j retryPatch).options = j.options ∧
      (applyPatch j retryPatch).original_filename = j.original_filename ∧
      (applyPatch j retryPatch).original_size = j.original_size ∧
      (applyPatch j retryPatch).original_path = j.original_path ∧
      (applyPatch j retryPatch).original_width = j.original_width ∧
      (applyPatch j retryPatch).original_height = j.original_height ∧
      (applyPatch j retryPatch).created_at = j.created_at ∧
      (applyPatch j retryPatch).status = JobStatus.queued ∧
      (applyPatch j retryPatch).progress = 0 ∧
      (applyPatch j retryPatch).error_message = Option.none ∧
      (applyPatch j retryPatch).started_at = Option.none ∧
      (applyPatch j retryPatch).completed_at = Option.none ∧
      (applyPatch j retryPatch).compressed_path = Option.none ∧
      (applyPatch j retryPatch).compressed_size = Option.none ∧
      (applyPatch j retryPatch).reduction_percent = Option.none ∧
      (applyPatch j retryPatch).compressed_width = j.compressed_width ∧
      (applyPatch j retryPatch).compressed_height = j.compressed_height ∧
      (applyPatch j retryPatch).expires_at = j.expires_at) := by
  refine ⟨?_, ?_, ?_⟩
  · intro h
    rw [h]
    rfl
  · intro j hj hne
    rw [hj]
    simp [retryRoute, hne]
  · intro j hj hfail
    rw [hj]
    refine ⟨?_, rfl, rfl, rfl, rfl, rfl, rfl, rfl, rfl, rfl, rfl, rfl, rfl,
      rfl, rfl, rfl, rfl, rfl, rfl⟩
    simp [retryRoute, hfail]

/-- C2 (witness): the amended retry theorem applied to a concrete
failed job. -/
theorem c2_witness :
    retryRoute (Option.some exFailedJob) =
      RetryResult.ok (applyPatch exFailedJob retryPatch) ∧
    (applyPatch exFailedJob retryPatch).status = JobStatus.queued ∧
    (applyPatch exFailedJob retryPatch).options = exFailedJob.options := by
  have h := (c2_retry (Option.some exFailedJob)).2.2 exFailedJob rfl rfl
  exact ⟨h.1, h.2.2.2.2.2.2.2.2.1, h.2.1⟩

/-- C8 (counterexample): with original_size = 3 and compressed size 1
the stored reduction_percent is the exact value 200/3, not the claimed
one-decimal rounding 66.7. -/
theorem c8_counterexample :
    (completeJob exJob3 exResult1 Option.none 0).reduction_percent =
      Option.some (200 / 3) ∧
    specRound1 (200 / 3) = 667 / 10 ∧
    ¬ (200 / 3 : ℚ) = 667 / 10 := by
  refine ⟨?_, ?_, by norm_num⟩
  · show Option.some (reductionPercent 3 1) = Option.some (200 / 3)
    congr 1
    unfold reductionPercent
    norm_num
  · unfold specRound1
    have h667 : round ((10 : ℚ) * (200 / 3)) = 667 := by
      have h46 : (10 : ℚ) * (200 / 3) + 1 / 2 = 4003 / 6 := by norm_num
      rw [round_eq, h46, Int.floor_eq_iff]
      constructor <;> norm_num
    rw [h667]
    norm_num

/-- C8 (amended): a successful completion stores status = completed,
progress = 100, the compressed_* columns straight from the tool result
(hence a positive compressed_size whenever the probed size is
positive), the exact (unrounded) reduction_percent
100 * (original_size - compressed_size) / original_size, completed_at =
now, and expires_at = now + TTL exactly when a retention TTL is
configured; the completion event carries progress 100. -/
theorem c8_completion (j : Job) (result : CompressResult) (ttl : Option ℕ)
    (now : ℚ) :
    (completeJob j result ttl now).status = JobStatus.completed ∧
    (completeJob j result ttl now).progress = 100 ∧
    (completeJob j result ttl now).compressed_path = Option.some result.path ∧
    (completeJob j result ttl now).compressed_size = Option.some result.size ∧
    (completeJob j result ttl now).compressed_width = Option.some result.width ∧
    (completeJob j result ttl now).compressed_height =
      Option.some result.height ∧
    (completeJob j result ttl now).reduction_percent =
      Option.some
        (100 * ((j.original_size : ℚ) - (result.size : ℚ)) /
          (j.original_size : ℚ)) ∧
    (completeJob j result ttl now).completed_at = Option.some now ∧
    (ttl = Option.none → (completeJob j result ttl now).expires_at =
      Option.none) ∧
    (∀ t, ttl = Option.some t → (completeJob j result ttl now).expires_at =
      Option.some (now + (t : ℚ) * 1000)) ∧
    (0 < result.size → ∃ s,
      (completeJob j result ttl now).compressed_size = Option.some s ∧
        0 < s) ∧
    (completionEvent j result).progress = 100 ∧
    (completionEvent j result).status = JobStatus.completed := by
  refine ⟨rfl, rfl, rfl, rfl, rfl, rfl, ?_, rfl, ?_, ?_, ?_, rfl, rfl⟩
  · show Option.some (reductionPercent j.original_size result.size) = _
    congr 1
    unfold reductionPercent
    ring
  · intro h
    rw [show (completeJob j result ttl now).expires_at =
      computeExpiresAt ttl now from rfl, h]
    rfl
  · intro t ht
    rw [show (completeJob j result ttl now).expires_at =
      computeExpiresAt ttl now from rfl, ht]
    rfl
  · intro h
    exact ⟨result.size, rfl, h⟩

/-- C8 (witness): the completion theorem at a concrete job, result and
TTL. -/
theorem c8_witness :
    (completeJob exJob3 exResult1 (Option.some 60) 0).expires_at =
      Option.some 60000 ∧
    (completeJob exJob3 exResult1 (Option.some 60) 0).reduction_percent =
      Option.some (200 / 3) := by
  have h := c8_completion exJob3 exResult1 (Option.some 60) 0
  refine ⟨(h.2.2.2.2.2.2.2.2.2.1 60 rfl).trans (by norm_num), ?_⟩
  refine (h.2.2.2.2.2.2.1).trans ?_
  show Option.some ((100 : ℚ) * ((3 : ℕ) - (1 : ℕ) : ℚ) / ((3 : ℕ) : ℚ)) = _
  congr 1
  norm_num

/-- The active-EMA list of applyResidualCorrection is the EMA image of
the qualifying keys. -/
theorem activeEmas_eq (store : ResidualStore) (keys : List String) :
    (keys.filterMap fun k =>
      match store k with
      | Option.some e =>
        if minSamplesForCorrection ≤ e.count then Option.some e.ema
        else Option.none
      | Option.none => Option.none) =
    (keys.filter fun k =>
      match store k with
      | Option.some e => minSamplesForCorrection ≤ e.count
      | Option.none => false).map fun k =>
        match store k with
        | Option.some e => e.ema
        | Option.none => 0 := by
  induction keys with
  | nil => rfl
  | cons k ks ih =>
    cases hk : store k with
    | none => simp [List.filterMap_cons, List.filter_cons, hk, ih]
    | some e =>
      by_cases hc : minSamplesForCorrection ≤ e.count
      · simp [List.filterMap_cons, List.filter_cons, hk, hc, ih]
      · simp [List.filterMap_cons, List.filter_cons, hk, hc, ih]

/-- applyResidualCorrection is the clamp of the spec's average over the
qualifying keys. -/
theorem applyResidualCorrection_eq (store : ResidualStore)
    (f : FeatureVector) (opts : CompressionOptions) :
    applyResidualCorrection store f opts =
      max (-maxResidualCorrection)
        (min maxResidualCorrection
          (specAvgActiveResidual store (getResidualKeys f opts))) := by
  unfold applyResidualCorrection specAvgActiveResidual
  rw [activeEmas_eq store (getResidualKeys f opts)]
  simp [List.length_map]

/-- With an empty residual store the correction is zero. -/
theorem applyResidualCorrection_empty (f : FeatureVector)
    (opts : CompressionOptions) :
    applyResidualCorrection emptyStore f opts = 0 := by
  have hfm : ∀ keys : List String,
      (keys.filterMap fun k =>
        match emptyStore k with
        | Option.some e =>
          if minSamplesForCorrection ≤ e.count then Option.some e.ema
          else Option.none
        | Option.none => Option.none) = [] := by
    intro keys
    induction keys with
    | nil => rfl
    | cons k ks ih => simp [List.filterMap_cons, emptyStore, ih]
  unfold applyResidualCorrection
  rw [hfm]
  norm_num [maxResidualCorrection]

/-- With an empty residual store no key qualifies, so the spec-side
average is zero. -/
theorem specAvgActiveResidual_empty (keys : List String) :
    specAvgActiveResidual emptyStore keys = 0 := by
  have hf : (keys.filter fun k =>
      match emptyStore k with
      | Option.some e => minSamplesForCorrection ≤ e.count
      | Option.none => false) = [] := by
    induction keys with
    | nil => rfl
    | cons k ks ih => simp [List.filter_cons, emptyStore, ih]
  unfold specAvgActiveResidual
  rw [hf]
  rfl

/-- C5 (counterexample): on the degraded probe (0, 0, 1, 0) the
fallback baseline uses pixels = 1 (the || 1 guard), not total_pixels =
0, so the prediction differs from the claimed formula: under the
identity interpretation of expm1/log1p (the real functions are likewise
injective) the code yields 500.0001, the claim 500. -/
theorem c5_counterexample :
    predict idPrims Option.none emptyStore probeFailInfo defaultOptions =
      5000001 / 10000 ∧
    max 100 (1000 * idPrims.expm1
      (specFallbackBaseline idPrims
        (extractFeatures probeFailInfo defaultOptions) +
        max (-(1 / 2)) (min (1 / 2)
          (specAvgActiveResidual emptyStore
            (getResidualKeys (extractFeatures probeFailInfo defaultOptions)
              defaultOptions))))) = 500 ∧
    ¬ (5000001 / 10000 : ℚ) = 500 := by
  have htp : (extractFeatures probeFailInfo defaultOptions).total_pixels
      = 0 := by
    show ((1 * 0 * 0 : ℕ) : ℚ) = 0
    norm_num
  have hb : baselinePredict idPrims Option.none
      (extractFeatures probeFailInfo defaultOptions) =
      1 * (1 / 10000000) + 1 / 2 := by
    simp only [baselinePredict]
    rw [if_pos htp]
    rfl
  refine ⟨?_, ?_, by norm_num⟩
  · show max 100 (idPrims.expm1
      (baselinePredict idPrims Option.none
        (extractFeatures probeFailInfo defaultOptions) +
        applyResidualCorrection emptyStore
          (extractFeatures probeFailInfo defaultOptions) defaultOptions) *
      1000) = 5000001 / 10000
    rw [applyResidualCorrection_empty, hb]
    show max 100 ((1 * (1 / 10000000) + 1 / 2 + 0) * 1000) = 5000001 / 10000
    norm_num [max_def]
  · rw [specAvgActiveResidual_empty]
    show max 100 (1000 * ((extractFeatures probeFailInfo
      defaultOptions).total_pixels * (1 / 10000000) + 1 / 2 +
        max (-(1 / 2)) (min (1 / 2) 0))) = 500
    rw [htp]
    norm_num [max_def, min_def]

/-- C5 (amended): predict equals
max(100, 1000 expm1(baseline + clamp(avg))) where the correction is the
average of the stored EMAs over exactly the bucket keys with at least 3
samples (0 when none qualify) clamped to plus/minus 0.5; with no
baseline model loaded, the baseline is log1p(p 1e-7 + 0.5) where p is
total_pixels, except that p = 1 when total_pixels is 0. -/
theorem c5_predict (prims : MathPrims) (model : Option BaselineModel)
    (store : ResidualStore) (info : GifInfo) (opts : CompressionOptions) :
    predict prims model store info opts =
      max 100 (1000 * prims.expm1
        (baselinePredict prims model (extractFeatures info opts) +
          max (-(1 / 2)) (min (1 / 2)
            (specAvgActiveResidual store
              (getResidualKeys (extractFeatures info opts) opts))))) ∧
    (∀ f : FeatureVector, f.total_pixels ≠ 0 →
      baselinePredict prims Option.none f = specFallbackBaseline prims f) ∧
    (∀ f : FeatureVector, f.total_pixels = 0 →
      baselinePredict prims Option.none f =
        prims.log1p ((1 : ℚ) * (1 / 10000000) + 1 / 2)) := by
  refine ⟨?_, ?_, ?_⟩
  · show max 100 (prims.expm1
      (baselinePredict prims model (extractFeatures info opts) +
        applyResidualCorrection store (extractFeatures info opts) opts) *
      1000) = _
    rw [applyResidualCorrection_eq]
    simp only [maxResidualCorrection]
    rw [mul_comm]
  · intro f hf
    simp only [baselinePredict]
    rw [if_neg hf]
    rfl
  · intro f hf
    simp only [baselinePredict]
    rw [if_pos hf]

/-- C5 (witness): the fallback equations evaluated at a real probe
(nonzero pixels) and at the degraded probe (zero pixels). -/
theorem c5_witness :
    baselinePredict idPrims Option.none
        (extractFeatures exInfo512 defaultOptions) =
      specFallbackBaseline idPrims
        (extractFeatures exInfo512 defaultOptions) ∧
    baselinePredict idPrims Option.none
        (extractFeatures probeFailInfo defaultOptions) =
      idPrims.log1p ((1 : ℚ) * (1 / 10000000) + 1 / 2) := by
  constructor
  · refine (c5_predict idPrims Option.none emptyStore exInfo512
      defaultOptions).2.1 _ ?_
    show ((1 * 512 * 512 : ℕ) : ℚ) ≠ 0
    norm_num
  · refine (c5_predict idPrims Option.none emptyStore probeFailInfo
      defaultOptions).2.2 _ ?_
    show ((1 * 0 * 0 : ℕ) : ℚ) = 0
    norm_num

/-- The state after the key loop at a key that is not updated. -/
theorem recordSampleResiduals_not_mem :
    ∀ (keys : List String) (st : ResidualStore) (r : ℚ) (q : String),
      q ∉ keys → recordSampleResiduals st keys r q = st q := by
  intro keys
  induction keys with
  | nil =>
    intro st r q _
    rfl
  | cons k ks ih =>
    intro st r q h
    show recordSampleResiduals
      (fun q' => if q' = k then Option.some (updateResidual r (st k))
        else st q') ks r q = st q
    rw [ih _ r q (fun hm => h (List.mem_cons_of_mem _ hm))]
    have hqk : q ≠ k := fun e => h (e ▸ List.mem_cons_self _ _)
    simp [hqk]

/-- With pairwise distinct keys, the key loop updates each key exactly
once from its prior state. -/
theorem recordSampleResiduals_mem :
    ∀ (keys : List String) (st : ResidualStore) (r : ℚ) (q : String),
      keys.Nodup → q ∈ keys →
      recordSampleResiduals st keys r q =
        Option.some (updateResidual r (st q)) := by
  intro keys
  induction keys with
  | nil =>
    intro st r q _ h
    cases h
  | cons k ks ih =>
    intro st r q hnd hq
    have hnd' := List.nodup_cons.mp hnd
    show recordSampleResiduals
      (fun q' => if q' = k then Option.some (updateResidual r (st k))
        else st q') ks r q = _
    rcases List.mem_cons.mp hq with rfl | hmem
    · rw [recordSampleResiduals_not_mem ks _ r q hnd'.1]
      simp
    · have hqk : q ≠ k := fun e => hnd'.1 (e ▸ hmem)
      rw [ih _ r q hnd'.2 hmem]
      simp [hqk]

/-- The six bucket keys of a job are pairwise distinct (their prefixes
differ). -/
theorem getResidualKeys_nodup (f : FeatureVector)
    (opts : CompressionOptions) :
    (getResidualKeys f opts).Nodup := by
  have hs : sizeGroup f.target_pixels = "xs" ∨
      sizeGroup f.target_pixels = "s" ∨
      sizeGroup f.target_pixels = "m" ∨
      sizeGroup f.target_pixels = "l" := by
    unfold sizeGroup
    split_ifs <;> simp
  have hc : compressionBucketKey opts.compression_level =
      "compression_bucket=none" ∨
      compressionBucketKey opts.compression_level =
        "compression_bucket=low" ∨
      compressionBucketKey opts.compression_level =
        "compression_bucket=medium" ∨
      compressionBucketKey opts.compression_level =
        "compression_bucket=high" := by
    unfold compressionBucketKey
    split_ifs <;> simp
  unfold getResidualKeys
  rcases hs with h1 | h1 | h1 | h1 <;> rw [h1] <;>
    rcases hc with h2 | h2 | h2 | h2 <;> rw [h2] <;>
    cases opts.optimize_transparency <;> cases opts.reduce_colors <;>
    cases opts.undo_optimizations <;> cases opts.drop_frames <;> decide

/-- The EMA chain keeps a positive count. -/
theorem foldlUpdate_count :
    ∀ (l : List ℚ) (e : ResidualEntry), e.count ≠ 0 →
      (l.foldl (fun e r => updateResidual r (Option.some e)) e).count =
        e.count + l.length := by
  intro l
  induction l with
  | nil =>
    intro e _
    simp
  | cons r rs ih =>
    intro e h
    show (rs.foldl _ (updateResidual r (Option.some e))).count = _
    have hstep : updateResidual r (Option.some e) =
        ⟨emaAlpha * r + (1 - emaAlpha) * e.ema, e.count + 1⟩ := by
      show (if e.count = 0 then _ else _) = _
      rw [if_neg h]
    rw [hstep, ih _ (by simp)]
    simp [List.length_cons]
    omega

/-- The EMA entry after the initial residual and k updates counts
k + 1 samples. -/
theorem emaIterate_count (r0 : ℚ) (rs : List ℚ) :
    (emaIterate r0 rs).count = rs.length + 1 := by
  unfold emaIterate
  rw [foldlUpdate_count rs (updateResidual r0 Option.none) (by simp [updateResidual])]
  simp [updateResidual]
  omega

/-- Appending one more residual applies one EMA step. -/
theorem emaIterate_append (r0 r : ℚ) (rs : List ℚ) :
    (emaIterate r0 (rs ++ [r])).ema =
      emaAlpha * r + (1 - emaAlpha) * (emaIterate r0 rs).ema := by
  have hc : (emaIterate r0 rs).count ≠ 0 := by
    rw [emaIterate_count]
    omega
  have hfold : emaIterate r0 (rs ++ [r]) =
      updateResidual r (Option.some (emaIterate r0 rs)) := by
    unfold emaIterate
    rw [List.foldl_append]
    rfl
  rw [hfold]
  rw [show updateResidual r (Option.some (emaIterate r0 rs)) =
    ⟨emaAlpha * r + (1 - emaAlpha) * (emaIterate r0 rs).ema,
      (emaIterate r0 rs).count + 1⟩ from by
        show (if (emaIterate r0 rs).count = 0 then _ else _) = _
        rw [if_neg hc]]

/-- Element at the split point of an appended singleton. -/
theorem getD_append_self (l : List ℚ) (r d : ℚ) :
    (l ++ [r]).getD l.length d = r := by
  induction l with
  | nil => rfl
  | cons a t ih => exact ih

/-- Appending a singleton does not change earlier elements. -/
theorem getD_append_lt (l : List ℚ) (r d : ℚ) :
    ∀ i, i < l.length → (l ++ [r]).getD i d = l.getD i d := by
  induction l with
  | nil =>
    intro i h
    exact absurd h (Nat.not_lt_zero i)
  | cons a t ih =>
    intro i hi
    cases i with
    | zero => rfl
    | succ n =>
      refine ih n ?_
      have := hi
      simp [List.length_cons] at this
      omega

/-- Closed form of the EMA after the initial residual r0 and the
updates rs, by reverse induction on rs. -/
theorem emaIterate_closed (r0 : ℚ) (rs : List ℚ) :
    (emaIterate r0 rs).ema =
      (Finset.range rs.length).sum (fun i =>
        emaAlpha * (1 - emaAlpha) ^ (rs.length - 1 - i) * rs.getD i 0) +
      (1 - emaAlpha) ^ rs.length * r0 := by
  induction rs using List.reverseRecOn with
  | nil => simp [emaIterate, updateResidual]
  | append_singleton rs r ih =>
    rw [emaIterate_append, ih]
    have hlen : (rs ++ [r]).length = rs.length + 1 := by simp
    rw [hlen, Finset.sum_range_succ]
    have hlast : (rs ++ [r]).getD rs.length 0 = r := getD_append_self rs r 0
    have hexp0 : rs.length + 1 - 1 - rs.length = 0 := by omega
    rw [hlast, hexp0, pow_zero]
    have hsum : (Finset.range rs.length).sum (fun i =>
        emaAlpha * (1 - emaAlpha) ^ (rs.length + 1 - 1 - i) *
          (rs ++ [r]).getD i 0) =
        (1 - emaAlpha) * (Finset.range rs.length).sum (fun i =>
          emaAlpha * (1 - emaAlpha) ^ (rs.length - 1 - i) *
            rs.getD i 0) := by
      rw [Finset.mul_sum]
      refine Finset.sum_congr rfl ?_
      intro i hi
      have hi' : i < rs.length := Finset.mem_range.mp hi
      rw [getD_append_lt rs r 0 i hi']
      have he : rs.length + 1 - 1 - i = (rs.length - 1 - i) + 1 := by omega
      rw [he, pow_succ]
      ring
    rw [hsum]
    ring

/-- C6: the per-key residual update of recordSample sets
EMA = residual, count = 1 on a fresh key and otherwise
EMA = 0.3 residual + 0.7 EMA_prev with count + 1; the key loop applies
exactly this update to every bucket key of the job (the keys are
pairwise distinct); and the EMA after the initial residual r0 and
further residuals rs is the claimed geometric sum. -/
theorem c6_residual_update :
    (∀ r : ℚ, updateResidual r Option.none = ⟨r, 1⟩) ∧
    (∀ (r : ℚ) (e : ResidualEntry), e.count ≠ 0 →
      updateResidual r (Option.some e) =
        ⟨emaAlpha * r + (1 - emaAlpha) * e.ema, e.count + 1⟩) ∧
    (∀ (prims : MathPrims) (model : Option BaselineModel)
      (store : ResidualStore) (info : GifInfo)
      (opts : CompressionOptions) (ms : ℚ) (key : String),
      key ∈ getResidualKeys (extractFeatures info opts) opts →
      recordSample prims model store info opts ms key =
        Option.some (updateResidual
          (prims.log1p (ms / 1000) -
            baselinePredict prims model (extractFeatures info opts))
          (store key))) ∧
    (∀ (r0 : ℚ) (rs : List ℚ),
      (emaIterate r0 rs).ema =
        (Finset.range rs.length).sum (fun i =>
          emaAlpha * (1 - emaAlpha) ^ (rs.length - 1 - i) *
            rs.getD i 0) +
        (1 - emaAlpha) ^ rs.length * r0) := by
  refine ⟨fun r => rfl, ?_, ?_, emaIterate_closed⟩
  · intro r e h
    show (if e.count = 0 then _ else _) = _
    rw [if_neg h]
  · intro prims model store info opts ms key hkey
    exact recordSampleResiduals_mem _ store _ key
      (getResidualKeys_nodup _ _) hkey

/-- C6 (witness): one EMA step on a key with one prior sample, and the
key loop evaluated at the drop_frames bucket key of a concrete job. -/
theorem c6_witness :
    updateResidual 2 (Option.some ⟨1, 1⟩) = ⟨13 / 10, 2⟩ ∧
    recordSample idPrims Option.none emptyStore probeFailInfo
        defaultOptions 1000 "drop_frames=none" =
      Option.some (updateResidual
        (idPrims.log1p (1000 / 1000) -
          baselinePredict idPrims Option.none
            (extractFeatures probeFailInfo defaultOptions))
        (emptyStore "drop_frames=none")) := by
  constructor
  · have h := c6_residual_update.2.1 2 ⟨1, 1⟩ (by decide)
    rw [h]
    congr 1
    norm_num [emaAlpha]
  · have hmem : "drop_frames=none" ∈
        getResidualKeys (extractFeatures probeFailInfo defaultOptions)
          defaultOptions := by
      unfold getResidualKeys
      have heq : "drop_frames=none" =
          "drop_frames=" ++ dropFramesStr defaultOptions.drop_frames := by
        decide
      rw [heq]
      exact List.mem_cons_of_mem _ (List.mem_cons_of_mem _
        (List.mem_cons_of_mem _ (List.mem_cons_of_mem _
          (List.mem_cons_self _ _))))
    exact c6_residual_update.2.2.1 idPrims Option.none emptyStore
      probeFailInfo defaultOptions 1000 "drop_frames=none" hmem

/-- C9 (counterexample): when the gifsicle --info invocation itself
throws, getGifInfo returns size 0, not the file's on-disk size (here
5). -/
theorem c9_counterexample :
    getGifInfo Option.none (Option.some 5) =
      { width := 0, height := 0, frames := 1, size := 0 } ∧
    ¬ (getGifInfo Option.none (Option.some 5)).size = 5 := by
  exact ⟨rfl, by decide⟩

/-- C9 (amended): when the probe output parses neither pattern,
getGifInfo degrades to width 0, height 0, frames 1 and the on-disk
size; when the invocation or the stat call throws, it degrades to
width 0, height 0, frames 1, size 0 - it never raises. -/
theorem c9_probe_fallback :
    (∀ out sz, findScreen out.data = Option.none →
      findFrames out.data = Option.none →
      getGifInfo (Option.some out) (Option.some sz) =
        { width := 0, height := 0, frames := 1, size := sz }) ∧
    (∀ fs, getGifInfo Option.none fs =
      { width := 0, height := 0, frames := 1, size := 0 }) ∧
    (∀ out, getGifInfo (Option.some out) Option.none =
      { width := 0, height := 0, frames := 1, size := 0 }) := by
  refine ⟨?_, ?_, ?_⟩
  · intro out sz h1 h2
    simp [getGifInfo, h1, h2]
  · intro fs
    cases fs <;> rfl
  · intro out
    rfl

/-- C9 (witness): the parse-failure branch evaluated on a concrete
unparsable output. -/
theorem c9_witness :
    getGifInfo (Option.some "not a gif") (Option.some 5) =
      { width := 0, height := 0, frames := 1, size := 5 } := by
  exact (c9_probe_fallback).1 "not a gif" 5 (by decide) (by decide)

/-- C10: GET /download/:id answers 404 for an unknown id, 400 for a job
that exists but is not completed, 404 for a completed job whose
compressed_path is absent, empty, or whose file no longer exists, and
otherwise streams the file with Content-Disposition attachment and
filename basename-compressed-ext. -/
theorem c10_download (stored : Option Job) (fileExists : String → Bool) :
    (stored = Option.none →
      downloadRoute stored fileExists = DownloadResult.notFound) ∧
    (∀ j, stored = Option.some j → j.status ≠ JobStatus.completed →
      downloadRoute stored fileExists = DownloadResult.badRequest) ∧
    (∀ j, stored = Option.some j → j.status = JobStatus.completed →
      j.compressed_path = Option.none →
      downloadRoute stored fileExists = DownloadResult.notFound) ∧
    (∀ j p, stored = Option.some j → j.status = JobStatus.completed →
      j.compressed_path = Option.some p →
      p.isEmpty = true ∨ fileExists p = false →
      downloadRoute stored fileExists = DownloadResult.notFound) ∧
    (∀ j p, stored = Option.some j → j.status = JobStatus.completed →
      j.compressed_path = Option.some p →
      p.isEmpty = false → fileExists p = true →
      downloadRoute stored fileExists =
        DownloadResult.stream
          ("attachment; filename=\"" ++
            downloadFilename j.original_filename ++ "\"") p) := by
  refine ⟨?_, ?_, ?_, ?_, ?_⟩
  · intro h
    rw [h]
    rfl
  · intro j hj hne
    rw [hj]
    simp [downloadRoute, hne]
  · intro j hj hst hp
    rw [hj]
    simp [downloadRoute, hst, hp]
  · intro j p hj hst hp hcase
    rw [hj]
    rcases hcase with h | h <;> simp [downloadRoute, hst, hp, h]
  · intro j p hj hst hp hne hex
    rw [hj]
    simp [downloadRoute, hst, hp, hne, hex]

/-- C10 (witness): the download route evaluated on a concrete completed
job whose artifact exists; the attachment filename for anim.gif is
anim-compressed.gif. -/
theorem c10_witness :
    downloadRoute (Option.some exCompletedJob) (fun _ => true) =
      DownloadResult.stream
        ("attachment; filename=\"" ++ downloadFilename "anim.gif" ++ "\"")
        "output/x.gif" ∧
    downloadFilename "anim.gif" = "anim-compressed.gif" := by
  refine ⟨(c10_download (Option.some exCompletedJob) (fun _ => true)).2.2.2.2
    exCompletedJob "output/x.gif" rfl rfl rfl (by decide) rfl, ?_⟩
  decide

/-- round is monotone (both JS Math.round and Mathlib's round are
floor (x + 1/2)). -/
theorem roundLe {x y : ℚ} (h : x ≤ y) : round x ≤ round y := by
  rw [round_eq, round_eq]
  exact Int.floor_le_floor (by linarith)

/-- round (c * s) is at most c for a scale s at most 1 and a natural
c. -/
theorem roundScaleLe (c : ℕ) (s : ℚ) (hs : s ≤ 1) :
    round ((c : ℚ) * s) ≤ (c : ℤ) := by
  have hx : (c : ℚ) * s ≤ ((c : ℕ) : ℚ) := by
    have h2 : (c : ℚ) * s ≤ (c : ℚ) * 1 :=
      mul_le_mul_of_nonneg_left hs (Nat.cast_nonneg c)
    rw [mul_one] at h2
    exact h2
  exact le_trans (roundLe hx) (le_of_eq (round_natCast c))

/-- Best-fit dimensions never exceed the originals. -/
theorem calculateBestFit_le (ow oh tw th : ℕ) :
    (calculateBestFit ow oh tw th).1 ≤ (ow : ℤ) ∧
      (calculateBestFit ow oh tw th).2 ≤ (oh : ℤ) := by
  have hs : min ((tw : ℚ) / (ow : ℚ)) (min ((th : ℚ) / (oh : ℚ)) 1) ≤ 1 :=
    le_trans (min_le_right _ _) (min_le_right _ _)
  constructor
  · show round ((ow : ℚ) * min ((tw : ℚ) / (ow : ℚ))
      (min ((th : ℚ) / (oh : ℚ)) 1)) ≤ (ow : ℤ)
    exact roundScaleLe ow _ hs
  · show round ((oh : ℚ) * min ((tw : ℚ) / (ow : ℚ))
      (min ((th : ℚ) / (oh : ℚ)) 1)) ≤ (oh : ℤ)
    exact roundScaleLe oh _ hs

/-- At best-fit scale 1 the computed dimensions equal the originals. -/
theorem calculateBestFit_of_one (ow oh tw th : ℕ)
    (h : min ((tw : ℚ) / (ow : ℚ)) (min ((th : ℚ) / (oh : ℚ)) 1) = 1) :
    calculateBestFit ow oh tw th = ((ow : ℤ), (oh : ℤ)) := by
  show (round ((ow : ℚ) * min ((tw : ℚ) / (ow : ℚ))
      (min ((th : ℚ) / (oh : ℚ)) 1)),
    round ((oh : ℚ) * min ((tw : ℚ) / (ow : ℚ))
      (min ((th : ℚ) / (oh : ℚ)) 1))) = ((ow : ℤ), (oh : ℤ))
  rw [h, mul_one, mul_one, round_natCast, round_natCast]

/-- At best-fit scale below 1 at least one computed dimension drops
strictly below the original, so compressGif emits the resize
argument. -/
theorem calculateBestFit_emit (ow oh tw th : ℕ) (how : 0 < ow)
    (hoh : 0 < oh)
    (h : min ((tw : ℚ) / (ow : ℚ)) (min ((th : ℚ) / (oh : ℚ)) 1) ≠ 1) :
    (calculateBestFit ow oh tw th).1 < (ow : ℤ) ∨
      (calculateBestFit ow oh tw th).2 < (oh : ℤ) := by
  have hle : min ((tw : ℚ) / (ow : ℚ)) (min ((th : ℚ) / (oh : ℚ)) 1) ≤ 1 :=
    le_trans (min_le_right _ _) (min_le_right _ _)
  have hlt : min ((tw : ℚ) / (ow : ℚ)) (min ((th : ℚ) / (oh : ℚ)) 1) < 1 :=
    lt_of_le_of_ne hle h
  have howq : (0 : ℚ) < (ow : ℚ) := by exact_mod_cast how
  have hohq : (0 : ℚ) < (oh : ℚ) := by exact_mod_cast hoh
  rcases le_total ((tw : ℚ) / (ow : ℚ)) (min ((th : ℚ) / (oh : ℚ)) 1) with
    hc | hc
  · left
    show round ((ow : ℚ) * min ((tw : ℚ) / (ow : ℚ))
      (min ((th : ℚ) / (oh : ℚ)) 1)) < (ow : ℤ)
    rw [min_eq_left hc]
    have hmul : (ow : ℚ) * ((tw : ℚ) / (ow : ℚ)) = ((tw : ℕ) : ℚ) := by
      field_simp
    rw [hmul, round_natCast]
    have htlt : (tw : ℚ) / (ow : ℚ) < 1 := by
      have := min_eq_left hc ▸ hlt
      exact this
    have : (tw : ℚ) < (ow : ℚ) := (div_lt_one howq).mp htlt
    exact_mod_cast this
  · have hmin : min ((tw : ℚ) / (ow : ℚ)) (min ((th : ℚ) / (oh : ℚ)) 1) =
        min ((th : ℚ) / (oh : ℚ)) 1 := min_eq_right hc
    have hmlt : min ((th : ℚ) / (oh : ℚ)) 1 < 1 := hmin ▸ hlt
    have hylt : (th : ℚ) / (oh : ℚ) < 1 := by
      rcases min_lt_iff.mp hmlt with h2 | h2
      · exact h2
      · exact absurd h2 (lt_irrefl _)
    right
    show round ((oh : ℚ) * min ((tw : ℚ) / (ow : ℚ))
      (min ((th : ℚ) / (oh : ℚ)) 1)) < (oh : ℤ)
    rw [hmin, min_eq_left (le_of_lt hylt)]
    have hmul : (oh : ℚ) * ((th : ℚ) / (oh : ℚ)) = ((th : ℕ) : ℚ) := by
      field_simp
    rw [hmul, round_natCast]
    have : (th : ℚ) < (oh : ℚ) := (div_lt_one hohq).mp hylt
    exact_mod_cast this

/-- The resize block never produces target dimensions above the
originals, whatever the options. -/
theorem resizeStep_le (opts : CompressionOptions) (info : GifInfo)
    (how : 0 < info.width) (hoh : 0 < info.height) :
    (resizeStep opts info).targetWidth ≤ (info.width : ℤ) ∧
      (resizeStep opts info).targetHeight ≤ (info.height : ℤ) := by
  have howq : (0 : ℚ) < (info.width : ℚ) := by exact_mod_cast how
  have hohq : (0 : ℚ) < (info.height : ℚ) := by exact_mod_cast hoh
  simp only [resizeStep]
  split_ifs with h1 h2 h3 h4 h5
  · exact calculateBestFit_le info.width info.height _ _
  · exact ⟨le_refl _, le_refl _⟩
  · constructor
    · show ((opts.target_width.getD 0 : ℕ) : ℤ) ≤ (info.width : ℤ)
      exact_mod_cast le_of_lt h4.2
    · show round ((info.height : ℚ) *
        ((opts.target_width.getD 0 : ℚ) / (info.width : ℚ))) ≤
        (info.height : ℤ)
      refine roundScaleLe info.height _ ?_
      rw [div_le_one howq]
      exact_mod_cast le_of_lt h4.2
  · constructor
    · show round ((info.width : ℚ) *
        ((opts.target_height.getD 0 : ℚ) / (info.height : ℚ))) ≤
        (info.width : ℤ)
      refine roundScaleLe info.width _ ?_
      rw [div_le_one hohq]
      exact_mod_cast le_of_lt h5.2
    · show ((opts.target_height.getD 0 : ℕ) : ℤ) ≤ (info.height : ℤ)
      exact_mod_cast le_of_lt h5.2
  · exact ⟨le_refl _, le_refl _⟩
  · exact ⟨le_refl _, le_refl _⟩

/-- C4: with resize enabled and both targets positive, compressGif uses
scale = min(W_t/W_o, H_t/H_o, 1) and emits --resize-fit with
dimensions (round(W_o scale), round(H_o scale)), omitting the argument
exactly when scale = 1; with only a width below the original it emits
--resize-width and computes height = round(H_o W_t/W_o), symmetrically
for height only; the target dimensions never exceed the originals. -/
theorem c4_best_fit_resize (opts : CompressionOptions) (info : GifInfo)
    (how : 0 < info.width) (hoh : 0 < info.height)
    (hre : opts.resize_enabled = true) :
    (∀ tw th, opts.target_width = Option.some tw →
      opts.target_height = Option.some th → 0 < tw → 0 < th →
      (min ((tw : ℚ) / (info.width : ℚ))
          (min ((th : ℚ) / (info.height : ℚ)) 1) = 1 →
        resizeStep opts info =
          { args := [], targetWidth := (info.width : ℤ),
            targetHeight := (info.height : ℤ) }) ∧
      (min ((tw : ℚ) / (info.width : ℚ))
          (min ((th : ℚ) / (info.height : ℚ)) 1) ≠ 1 →
        resizeStep opts info =
          { args := ["--resize-fit=" ++
              toString (round ((info.width : ℚ) *
                min ((tw : ℚ) / (info.width : ℚ))
                  (min ((th : ℚ) / (info.height : ℚ)) 1))) ++ "x" ++
              toString (round ((info.height : ℚ) *
                min ((tw : ℚ) / (info.width : ℚ))
                  (min ((th : ℚ) / (info.height : ℚ)) 1)))],
            targetWidth := round ((info.width : ℚ) *
              min ((tw : ℚ) / (info.width : ℚ))
                (min ((th : ℚ) / (info.height : ℚ)) 1)),
            targetHeight := round ((info.height : ℚ) *
              min ((tw : ℚ) / (info.width : ℚ))
                (min ((th : ℚ) / (info.height : ℚ)) 1)) })) ∧
    (∀ tw, opts.target_width = Option.some tw → 0 < tw →
      opts.target_height.getD 0 = 0 → tw < info.width →
      resizeStep opts info =
        { args := ["--resize-width=" ++ toString tw],
          targetWidth := (tw : ℤ),
          targetHeight := round ((info.height : ℚ) *
            ((tw : ℚ) / (info.width : ℚ))) }) ∧
    (∀ th, opts.target_height = Option.some th → 0 < th →
      opts.target_width.getD 0 = 0 → th < info.height →
      resizeStep opts info =
        { args := ["--resize-height=" ++ toString th],
          targetWidth := round ((info.width : ℚ) *
            ((th : ℚ) / (info.height : ℚ))),
          targetHeight := (th : ℤ) }) ∧
    ((resizeStep opts info).targetWidth ≤ (info.width : ℤ) ∧
      (resizeStep opts info).targetHeight ≤ (info.height : ℤ)) := by
  refine ⟨?_, ?_, ?_, resizeStep_le opts info how hoh⟩
  · intro tw th htw hth htw0 hth0
    have hgw : opts.target_width.getD 0 = tw := by rw [htw]; rfl
    have hgh : opts.target_height.getD 0 = th := by rw [hth]; rfl
    constructor
    · intro h1
      have hbf := calculateBestFit_of_one info.width info.height tw th h1
      simp only [resizeStep]
      rw [if_pos hre, hgw, hgh, if_pos ⟨htw0, hth0⟩, hbf]
      rw [if_neg (by simp)]
    · intro h1
      have hemit :=
        calculateBestFit_emit info.width info.height tw th how hoh h1
      simp only [resizeStep]
      rw [if_pos hre, hgw, hgh, if_pos ⟨htw0, hth0⟩, if_pos hemit]
      rfl
  · intro tw htw htw0 hgh0 hlt
    have hgw : opts.target_width.getD 0 = tw := by rw [htw]; rfl
    simp only [resizeStep]
    rw [if_pos hre, hgw, hgh0]
    rw [if_neg (fun hcon => lt_irrefl 0 hcon.2), if_pos ⟨htw0, hlt⟩]
  · intro th hth hth0 hgw0 hlt
    have hgh : opts.target_height.getD 0 = th := by rw [hth]; rfl
    simp only [resizeStep]
    rw [if_pos hre, hgw0, hgh]
    rw [if_neg (fun hcon => lt_irrefl 0 hcon.1)]
    rw [if_neg (fun hcon => lt_irrefl 0 hcon.1), if_pos ⟨hth0, hlt⟩]

/-- C4 (witness): 512x512 input with targets 384x256 gives scale 1/2
and a 256x256 --resize-fit argument (spec scenario S2). -/
theorem c4_witness :
    resizeStep exResizeOptions exInfo512 =
      { args := ["--resize-fit=256x256"], targetWidth := 256,
        targetHeight := 256 } := by
  have h := ((c4_best_fit_resize exResizeOptions exInfo512 (by decide)
    (by decide) rfl).1 384 256 rfl rfl (by decide) (by decide)).2 (by
      show min ((384 : ℚ) / ((512 : ℕ) : ℚ))
        (min ((256 : ℚ) / ((512 : ℕ) : ℚ)) 1) ≠ 1
      norm_num [min_def])
  refine h.trans ?_
  have hsc : min (((384 : ℕ) : ℚ) / ((exInfo512.width : ℕ) : ℚ))
      (min (((256 : ℕ) : ℚ) / ((exInfo512.height : ℕ) : ℚ)) 1) = 1 / 2 := by
    show min (((384 : ℕ) : ℚ) / ((512 : ℕ) : ℚ))
      (min (((256 : ℕ) : ℚ) / ((512 : ℕ) : ℚ)) 1) = 1 / 2
    norm_num [min_def]
  rw [hsc]
  have h256w : round (((exInfo512.width : ℕ) : ℚ) * (1 / 2)) = 256 := by
    show round (((512 : ℕ) : ℚ) * (1 / 2)) = 256
    rw [show ((512 : ℕ) : ℚ) * (1 / 2) = ((256 : ℕ) : ℚ) by norm_num]
    exact round_natCast 256
  have h256h : round (((exInfo512.height : ℕ) : ℚ) * (1 / 2)) = 256 := by
    show round (((512 : ℕ) : ℚ) * (1 / 2)) = 256
    rw [show ((512 : ℕ) : ℚ) * (1 / 2) = ((256 : ℕ) : ℚ) by norm_num]
    exact round_natCast 256
  rw [h256w, h256h]
  decide

/-- C7: picking a job up marks it processing with started_at = now and
publishes progress 25; getTotalProgress maps internal processing
progress p in 0..100 to 25 + 74p/100, which lies in 25..99; the
completed and failed phases map to 100 and 0, and the completion and
failure events publish progress 100 and 0 respectively. -/
theorem c7_progress_phases (j : Job) (now : ℚ) :
    (applyPatch j (processingStartPatch now)).status = JobStatus.processing ∧
    (applyPatch j (processingStartPatch now)).started_at = Option.some now ∧
    processingStartEvent.status = JobStatus.processing ∧
    processingStartEvent.progress = 25 ∧
    (∀ p : ℚ, 0 ≤ p → p ≤ 100 →
      getTotalProgress p JobStatus.processing = 25 + 74 * p / 100 ∧
      25 ≤ getTotalProgress p JobStatus.processing ∧
      getTotalProgress p JobStatus.processing ≤ 99) ∧
    (∀ p : ℚ, getTotalProgress p JobStatus.completed = 100) ∧
    (∀ p : ℚ, getTotalProgress p JobStatus.failed = 0) ∧
    (∀ result, (completionEvent j result).progress = 100) ∧
    (∀ msg, (failureEvent msg).progress = 0) := by
  refine ⟨rfl, rfl, rfl, rfl, ?_, fun p => rfl, fun p => rfl,
    fun result => rfl, fun msg => rfl⟩
  intro p hp0 hp100
  have heq : getTotalProgress p JobStatus.processing = 25 + 74 * p / 100 := by
    show 25 + p / 100 * 74 = 25 + 74 * p / 100
    ring
  refine ⟨heq, ?_, ?_⟩
  · rw [heq]
    have : 0 ≤ 74 * p / 100 := by positivity
    linarith
  · rw [heq]
    have : 74 * p / 100 ≤ 74 := by
      rw [div_le_iff₀ (by norm_num : (0 : ℚ) < 100)]
      linarith
    linarith

/-- Membership in the fuelled frame-selection loop: starting at i, the
collected indices are exactly the i + k * (stepPred + 1) below the frame
count. -/
theorem selLoopGo_mem (sp f : ℕ) :
    ∀ fuel i j, f - i ≤ fuel →
      (j ∈ selLoopGo sp f fuel i ↔ ∃ k, j = i + k * (sp + 1) ∧ j < f) := by
  intro fuel
  induction fuel with
  | zero =>
    intro i j h
    constructor
    · intro hj
      cases hj
    · rintro ⟨k, hk, hjf⟩
      have hij : i ≤ j := hk ▸ Nat.le_add_right _ _
      omega
  | succ n ih =>
    intro i j h
    show j ∈ (if i < f then i :: selLoopGo sp f n (i + sp + 1) else []) ↔ _
    by_cases hif : i < f
    · rw [if_pos hif]
      simp only [List.mem_cons]
      rw [ih (i + sp + 1) j (by omega)]
      constructor
      · rintro (rfl | ⟨k, hk, hjf⟩)
        · exact ⟨0, by simp, hif⟩
        · exact ⟨k + 1, by rw [hk]; ring, hjf⟩
      · rintro ⟨k, rfl, hjf⟩
        cases k with
        | zero => left; simp
        | succ k => right; exact ⟨k, by ring, hjf⟩
    · rw [if_neg hif]
      constructor
      · intro hj
        cases hj
      · rintro ⟨k, hk, hjf⟩
        have hij : i ≤ j := hk ▸ Nat.le_add_right _ _
        omega

/-- The fuelled frame-selection loop emits strictly increasing
indices. -/
theorem selLoopGo_sorted (sp f : ℕ) :
    ∀ fuel i, f - i ≤ fuel → (selLoopGo sp f fuel i).Sorted (· < ·) := by
  intro fuel
  induction fuel with
  | zero =>
    intro i h
    exact List.sorted_nil
  | succ n ih =>
    intro i h
    show List.Sorted _ (if i < f then i :: selLoopGo sp f n (i + sp + 1) else [])
    by_cases hif : i < f
    · rw [if_pos hif]
      refine List.sorted_cons.mpr ⟨?_, ih _ (by omega)⟩
      intro b hb
      rw [selLoopGo_mem sp f n (i + sp + 1) b (by omega)] at hb
      obtain ⟨k, rfl, hbf⟩ := hb
      exact Nat.lt_of_lt_of_le (by omega) (Nat.le_add_right _ _)
    · rw [if_neg hif]
      exact List.sorted_nil

/-- The kept frame indices for a drop factor n ≥ 1 are exactly the j
below the frame count with j + 1 a positive multiple of n, i.e. n-1,
2n-1, 3n-1, ... -/
theorem frameSelectorIdxs_mem (n f j : ℕ) (hn : 1 ≤ n) :
    j ∈ frameSelectorIdxs n f ↔ j < f ∧ ∃ k, j + 1 = (k + 1) * n := by
  obtain ⟨m, rfl⟩ : ∃ m, n = m + 1 := ⟨n - 1, by omega⟩
  unfold frameSelectorIdxs selLoop
  have hm : m + 1 - 1 = m := rfl
  rw [hm]
  rw [selLoopGo_mem m f (f - m) m j (le_refl _)]
  constructor
  · rintro ⟨k, rfl, hf⟩
    exact ⟨hf, k, by ring⟩
  · rintro ⟨hf, k, hk⟩
    refine ⟨k, ?_, hf⟩
    have h2 : j + 1 = m + k * (m + 1) + 1 := by rw [hk]; ring
    exact Nat.add_right_cancel h2

/-- The kept frame indices are strictly increasing. -/
theorem frameSelectorIdxs_sorted (n f : ℕ) :
    (frameSelectorIdxs n f).Sorted (· < ·) := by
  unfold frameSelectorIdxs selLoop
  exact selLoopGo_sorted (n - 1) f (f - (n - 1)) (n - 1) (le_refl _)

/-- Appending preserves the head character of a nonempty string. -/
theorem firstChar_append (t s : String) (c : Char)
    (h : firstChar t = Option.some c) :
    firstChar (t ++ s) = Option.some c := by
  unfold firstChar at h ⊢
  rw [String.data_append]
  cases ht : t.data with
  | nil =>
    rw [ht] at h
    simp at h
  | cons a l =>
    rw [ht] at h
    simp at h
    simp [h]

/-- Every argument contributed by the resize block starts with a
dash. -/
theorem resizeStep_firstChar (opts : CompressionOptions) (info : GifInfo) :
    ∀ a ∈ (resizeStep opts info).args, firstChar a = Option.some '-' := by
  intro a ha
  simp only [resizeStep] at ha
  split_ifs at ha <;> simp at ha
  · rw [ha]
    exact firstChar_append _ _ _
      (firstChar_append _ _ _ (firstChar_append _ _ _ (by decide)))
  · rw [ha]
    exact firstChar_append _ _ _ (by decide)
  · rw [ha]
    exact firstChar_append _ _ _ (by decide)

/-- Every argument pushed before the input path starts with a dash. -/
theorem optionArgs_firstChar (opts : CompressionOptions) (info : GifInfo) :
    ∀ a ∈ optionArgs opts info, firstChar a = Option.some '-' := by
  intro a ha
  unfold optionArgs at ha
  simp only [List.append_assoc, List.mem_append] at ha
  rcases ha with h | h | h | h
  · simp only [List.mem_cons, List.mem_singleton, List.not_mem_nil,
      or_false] at h
    rcases h with h | h
    · rw [h]
      exact firstChar_append _ _ _ (by decide)
    · rw [h]
      decide
  · rcases Decidable.em (opts.undo_optimizations = true) with hu | hu
    · rw [if_pos hu] at h
      simp at h
      rw [h]
      decide
    · rw [if_neg hu] at h
      cases h
  · unfold colorArgs at h
    split_ifs at h <;> simp at h
    rw [h]
    exact firstChar_append _ _ _ (by decide)
  · exact resizeStep_firstChar opts info a h

/-- Every frame selector starts with a hash mark. -/
theorem selectorStrings_firstChar (opts : CompressionOptions)
    (info : GifInfo) :
    ∀ a ∈ selectorStrings opts info, firstChar a = Option.some '#' := by
  intro a ha
  unfold selectorStrings at ha
  split_ifs at ha
  · cases ha
  · simp only [List.mem_map] at ha
    obtain ⟨i, _, rfl⟩ := ha
    exact firstChar_append _ _ _ (by decide)

/-- C3: compressGif builds option arguments (all dash-prefixed), then
the input path, then the frame selectors, then -o and the output path;
with drop_frames = nN the selector indices are exactly those j below
the probed frame count with j + 1 a positive multiple of N (that is
N-1, 2N-1, 3N-1, ...), in strictly increasing order, each rendered as
"#j"; with drop_frames = none there are no selectors. -/
theorem c3_frame_selection (input output : String)
    (opts : CompressionOptions) (info : GifInfo) :
    buildArgs input output opts info =
      optionArgs opts info ++ [input] ++ selectorStrings opts info ++
        ["-o", output] ∧
    (∀ a ∈ optionArgs opts info, firstChar a = Option.some '-') ∧
    (∀ a ∈ selectorStrings opts info, firstChar a = Option.some '#') ∧
    (opts.drop_frames = DropFrames.dnone → selectorStrings opts info = []) ∧
    (opts.drop_frames ≠ DropFrames.dnone →
      selectorStrings opts info =
        (frameSelectorIdxs (dropN opts.drop_frames) info.frames).map
          (fun i => "#" ++ toString i) ∧
      (∀ j, j ∈ frameSelectorIdxs (dropN opts.drop_frames) info.frames ↔
        j < info.frames ∧ ∃ k, j + 1 = (k + 1) * dropN opts.drop_frames) ∧
      (frameSelectorIdxs (dropN opts.drop_frames) info.frames).Sorted
        (· < ·)) := by
  refine ⟨rfl, optionArgs_firstChar opts info,
    selectorStrings_firstChar opts info, ?_, ?_⟩
  · intro h
    unfold selectorStrings
    rw [if_pos h]
  · intro h
    have hn : 1 ≤ dropN opts.drop_frames := by
      cases hd : opts.drop_frames
      · exact absurd hd h
      · decide
      · decide
      · decide
    refine ⟨?_, fun j => frameSelectorIdxs_mem _ _ j hn,
      frameSelectorIdxs_sorted _ _⟩
    unfold selectorStrings
    rw [if_neg h]

/-- C3 (witness): drop_frames = n3 on a 12-frame gif keeps indices 2,
5, 8, 11, rendered "#2" "#5" "#8" "#11" after the input path. -/
theorem c3_witness :
    selectorStrings exN3Options exInfo12 =
      (frameSelectorIdxs (dropN exN3Options.drop_frames)
        exInfo12.frames).map (fun i => "#" ++ toString i) ∧
    (5 ∈ frameSelectorIdxs (dropN exN3Options.drop_frames) exInfo12.frames ↔
      5 < exInfo12.frames ∧
        ∃ k, 5 + 1 = (k + 1) * dropN exN3Options.drop_frames) ∧
    selectorStrings exN3Options exInfo12 = ["#2", "#5", "#8", "#11"] := by
  have h := (c3_frame_selection "in.gif" "out.gif" exN3Options
    exInfo12).2.2.2.2 (by decide)
  exact ⟨h.1, h.2.1 5, by decide⟩

/-- C7 (witness): the phase mapping evaluated at a concrete job and an
internal progress of 50. -/
theorem c7_witness :
    getTotalProgress 50 JobStatus.processing = 25 + 74 * 50 / 100 ∧
    25 ≤ getTotalProgress 50 JobStatus.processing ∧
    getTotalProgress 50 JobStatus.processing ≤ 99 := by
  exact (c7_progress_phases exProcessingJob 10).2.2.2.2.1 50 (by norm_num)
    (by norm_num)

end GifCompressor

